import Mathlib

/-!
Shallow embedding of the decode-task supervisor of `atriva-vpipe-ffmpeg-rockchip`
(`src/app/routes.py`, `src/app/services/ffmpeg_utils.py`, `src/config.py`).

Modelling conventions:
* A `subprocess.Popen` handle is modelled by `Proc`; its `exitCode` field records
  what `poll()` returns at the moment the embedded operation inspects it
  (`none` = still running).
* The in-memory registry `decode_tasks : Dict[str, dict]` is an association list
  `Registry`; Python dict assignment is `dictSet` (replace or append).
* The frame root `/app/frames` is an association list `FrameRoot` mapping each
  camera directory's name (its final path component) to the list of mtimes of
  the `.jpg` files it holds.  A task's `output_folder` is always
  `OUTPUT_FOLDER / camera_id`, so directories are keyed by camera id and the
  full path string is recovered by `outPathStr` where command lines need it.
* External effects (probing a backend, the outcome of a `Popen`, stderr text,
  wall-clock time) are explicit parameters of the embedded operations.
-/

namespace Vpipe

/-- A spawned decoder process as observed by the supervisor: `exitCode` is the
result of `poll()` at inspection time (`none` = alive), `procStderr` the text a
`communicate()` call would return. -/
structure Proc where
  pid : Nat
  exitCode : Option Int
  procStderr : String
deriving DecidableEq, Repr

/-- One entry of `decode_tasks` (routes.py line 26): process handle, output
folder (keyed by its name, the camera id), status string, last error. -/
structure Task where
  process : Option Proc
  output_folder : String
  status : String
  last_error : Option String
deriving DecidableEq, Repr

/-- The global `decode_tasks` registry. -/
abbrev Registry : Type := List (String × Task)

/-- The tree of per-camera directories under `/app/frames`, each with the
mtimes of its frame files. -/
abbrev FrameRoot : Type := List (String × List Nat)

/-- Python dict assignment `d[k] = v`: replace the binding if the key is
present, append it otherwise. -/
def dictSet {β : Type} : List (String × β) → String → β → List (String × β)
  | [], k, v => [(k, v)]
  | (k2, v2) :: rest, k, v =>
      if k2 = k then (k, v) :: rest else (k2, v2) :: dictSet rest k v

/-- `config.HW_ACCEL_OPTIONS` (config.py line 15): probe priority order. -/
def HW_ACCEL_OPTIONS : List String := ["rkmpp", "v4l2", "rga", "none"]

/-- `config.OUTPUT_FOLDER` as a string. -/
def OUTPUT_FOLDER_STR : String := "/app/frames"

/-- Full path of a camera's frame directory, `OUTPUT_FOLDER / name`. -/
def outPathStr (name : String) : String := OUTPUT_FOLDER_STR ++ "/" ++ name

/-- The probing loop of `get_best_hwaccel` (ffmpeg_utils.py lines 110-133):
walk the candidate list; the sentinel "none" is returned immediately, any other
candidate is returned iff its synthetic probe succeeds; an exhausted list falls
back to "none".  `probe` is the external probe outcome. -/
def hwaccel_loop (probe : String → Bool) : List String → String
  | [] => "none"
  | a :: rest =>
      if a = "none" then "none"
      else if probe a then a else hwaccel_loop probe rest

/-- `get_best_hwaccel` (ffmpeg_utils.py lines 104-133).  A truthy
`force_format` that is a member of `HW_ACCEL_OPTIONS` is returned unchecked;
otherwise the priority list is probed in order. -/
def get_best_hwaccel (probe : String → Bool) (force_format : Option String) : String :=
  match force_format with
  | some f =>
      if f ≠ "" ∧ f ∈ HW_ACCEL_OPTIONS then f
      else hwaccel_loop probe HW_ACCEL_OPTIONS
  | none => hwaccel_loop probe HW_ACCEL_OPTIONS

/-- Python's `str.startswith`, as a structural character-list prefix test (so
that it evaluates by kernel reduction). -/
def pyStartsWith (s pre : String) : Bool := pre.data.isPrefixOf s.data

/-- The `-vf` filter chain used by every decode command: frame-rate limiting,
then pixel-format normalisation (routes.py / ffmpeg_utils.py). -/
def vfChain (fps : Nat) : String := "fps=" ++ toString fps ++ ",format=rgb24"

/-- The decoder command built by `decode_video2frames_in_jpeg`
(ffmpeg_utils.py lines 162-230), given the resolved backend: branches on the
backend name and on whether the source is an RTSP network stream. -/
def util_decode_cmd (input_path : String) (hw_accel : String) (fps : Nat)
    (output_template : String) : List String :=
  if hw_accel = "none" then
    if pyStartsWith input_path "rtsp://" then
      ["ffmpeg", "-rtsp_transport", "tcp", "-i", input_path,
       "-vf", vfChain fps, output_template]
    else
      ["ffmpeg", "-i", input_path, "-vf", vfChain fps, output_template]
  else if hw_accel = "rkmpp" then
    if pyStartsWith input_path "rtsp://" then
      ["ffmpeg", "-hwaccel", "rkmpp", "-rtsp_transport", "tcp", "-i", input_path,
       "-vf", vfChain fps, output_template]
    else
      ["ffmpeg", "-hwaccel", "rkmpp", "-i", input_path,
       "-vf", vfChain fps, output_template]
  else if hw_accel = "v4l2" then
    if pyStartsWith input_path "rtsp://" then
      ["ffmpeg", "-hwaccel", "v4l2", "-rtsp_transport", "tcp", "-i", input_path,
       "-vf", vfChain fps, output_template]
    else
      ["ffmpeg", "-hwaccel", "v4l2", "-i", input_path,
       "-vf", vfChain fps, output_template]
  else if hw_accel = "rga" then
    if pyStartsWith input_path "rtsp://" then
      ["ffmpeg", "-rtsp_transport", "tcp", "-i", input_path,
       "-vf", vfChain fps ++ ",rga=format=rgb24", output_template]
    else
      ["ffmpeg", "-i", input_path,
       "-vf", vfChain fps ++ ",rga=format=rgb24", output_template]
  else
    if pyStartsWith input_path "rtsp://" then
      ["ffmpeg", "-rtsp_transport", "tcp", "-i", input_path,
       "-vf", vfChain fps, output_template]
    else
      ["ffmpeg", "-i", input_path, "-vf", vfChain fps, output_template]

/-- The dictionary `get_video_info` returns on a failed probe run
(ffmpeg_utils.py lines 83-89): a single "error" key, nothing else. -/
def get_video_info_error_result (e : String) : List (String × String) :=
  [("error", "Failed to get video info: " ++ e)]

/-- `Path(p).stem`: final path component without its last extension. -/
def pathStem (p : String) : String :=
  let base := (p.splitOn "/").getLastD p
  let parts := base.splitOn "."
  if parts.length ≤ 1 then base else String.intercalate "." parts.dropLast

/-- Filesystem / process effects performed by the one-shot decode path. -/
inductive Effect where
  | mkdirEff (dir : String)
  | runEff (cmd : List String)
deriving DecidableEq, Repr

/-- Python exceptions escaping the one-shot decode path. -/
inductive PyExc where
  | keyError (k : String)
  | runtimeError (msg : String)
deriving DecidableEq, Repr

/-- `decode_video2frames_in_jpeg` (ffmpeg_utils.py lines 135-238).
`v_info` is the dictionary returned by its `get_video_info` call; `runRC` and
`runStderr` are the outcome of the final blocking decoder run.  The f-string on
line 143 subscripts `v_info` with "format", "codec", "width", "height", "fps"
in that order, so a missing key raises `KeyError` there, before the output
directory is created and before the decoder is run.  Returns the effects
performed together with the result or the escaping exception. -/
def decode_video2frames_in_jpeg (probe : String → Bool)
    (v_info : List (String × String)) (input_path : String)
    (force_format : String) (fps : Nat) (camera_id : Option String)
    (runRC : Int) (runStderr : String) :
    List Effect × Except PyExc String :=
  let hw := get_best_hwaccel probe (some force_format)
  match List.lookup "format" v_info with
  | none => ([], Except.error (PyExc.keyError "format"))
  | some _ =>
  match List.lookup "codec" v_info with
  | none => ([], Except.error (PyExc.keyError "codec"))
  | some _ =>
  match List.lookup "width" v_info with
  | none => ([], Except.error (PyExc.keyError "width"))
  | some _ =>
  match List.lookup "height" v_info with
  | none => ([], Except.error (PyExc.keyError "height"))
  | some _ =>
  match List.lookup "fps" v_info with
  | none => ([], Except.error (PyExc.keyError "fps"))
  | some _ =>
    let video_name := match camera_id with
      | some cid => cid
      | none => pathStem input_path
    let folder := outPathStr video_name
    let tmpl := folder ++ "/" ++ video_name ++ "_%04d.jpg"
    let cmd := util_decode_cmd input_path hw fps tmpl
    let effs := [Effect.mkdirEff folder, Effect.runEff cmd]
    if runRC ≠ 0 then
      (effs, Except.error (PyExc.runtimeError ("FFmpeg error: " ++ runStderr)))
    else
      (effs, Except.ok folder)

/-- `is_process_running` (routes.py lines 106-107): the handle is non-null and
`poll()` returns `None`. -/
def is_process_running (p : Option Proc) : Bool :=
  match p with
  | some q => q.exitCode.isNone
  | none => false

/-- `get_frame_count` (routes.py lines 100-104): number of `.jpg` files in the
folder, 0 if it is missing or unreadable. -/
def get_frame_count (fs : FrameRoot) (folder : String) : Nat :=
  match List.lookup folder fs with
  | some l => l.length
  | none => 0

/-- `cleanup_camera_frames` (routes.py lines 29-39): delete every `.jpg` file
in the camera's folder; silent no-op when the folder does not exist. -/
def cleanup_camera_frames (fs : FrameRoot) (camera_id : String) : FrameRoot :=
  match List.lookup camera_id fs with
  | some _ => dictSet fs camera_id []
  | none => fs

/-- `cleanup_orphaned_frames` (routes.py lines 41-54): for every directory
under the frame root, clear it when its name is not a registry key or its
registry entry has status "stopped". -/
def cleanup_orphaned_frames (tasks : Registry) (fs : FrameRoot) : FrameRoot :=
  fs.map (fun e =>
    match List.lookup e.1 tasks with
    | none => (e.1, ([] : List Nat))
    | some t => if t.status = "stopped" then (e.1, []) else e)

/-- `output_folder.mkdir(parents=True, exist_ok=True)`: ensure the camera's
directory exists under the frame root. -/
def mkdirCamera (fs : FrameRoot) (camera_id : String) : FrameRoot :=
  match List.lookup camera_id fs with
  | some _ => fs
  | none => fs ++ [(camera_id, [])]

/-- `max(frame_files, key=mtime)`: greatest mtime among the frame files. -/
def maxMtime (l : List Nat) : Nat := l.foldl Nat.max 0

/-- The inline decoder command of `decode_video` (routes.py lines 182-233),
branching first on the RTSP prefix, then on the resolved backend. -/
def routes_cmd (hw_accel : String) (input_path : String) (fps : Nat)
    (camera_id : String) : List String :=
  let tmpl := outPathStr camera_id ++ "/frame_%04d.jpg"
  if pyStartsWith input_path "rtsp://" then
    if hw_accel = "rkmpp" then
      ["ffmpeg", "-hwaccel", "rkmpp", "-rtsp_transport", "tcp", "-i", input_path,
       "-vf", vfChain fps, tmpl]
    else if hw_accel = "v4l2" then
      ["ffmpeg", "-hwaccel", "v4l2", "-rtsp_transport", "tcp", "-i", input_path,
       "-vf", vfChain fps, tmpl]
    else if hw_accel = "rga" then
      ["ffmpeg", "-rtsp_transport", "tcp", "-i", input_path,
       "-vf", vfChain fps ++ ",rga=format=rgb24", tmpl]
    else
      ["ffmpeg", "-rtsp_transport", "tcp", "-i", input_path,
       "-vf", vfChain fps, tmpl]
  else
    if hw_accel = "rkmpp" then
      ["ffmpeg", "-hwaccel", "rkmpp", "-i", input_path, "-vf", vfChain fps, tmpl]
    else if hw_accel = "v4l2" then
      ["ffmpeg", "-hwaccel", "v4l2", "-i", input_path, "-vf", vfChain fps, tmpl]
    else if hw_accel = "rga" then
      ["ffmpeg", "-i", input_path, "-vf", vfChain fps ++ ",rga=format=rgb24", tmpl]
    else
      ["ffmpeg", "-i", input_path, "-vf", vfChain fps, tmpl]

/-- The software fallback command of `decode_video` (routes.py lines 254-265). -/
def fallback_cmd (input_path : String) (fps : Nat) (camera_id : String) :
    List String :=
  let tmpl := outPathStr camera_id ++ "/frame_%04d.jpg"
  if pyStartsWith input_path "rtsp://" then
    ["ffmpeg", "-rtsp_transport", "tcp", "-i", input_path, "-vf", vfChain fps, tmpl]
  else
    ["ffmpeg", "-i", input_path, "-vf", vfChain fps, tmpl]

/-- Outcomes of the `/decode/` endpoint. -/
inductive StartOutcome where
  | invalidRequest
  | alreadyRunning (output_folder : String)
  | started (output_folder : String)
  | startFailed (detail : String)
deriving DecidableEq, Repr

/-- Outcomes of the two stop endpoints. -/
inductive StopOutcome where
  | stopped
  | notFound
  | httpError (code : Nat) (detail : String)
deriving DecidableEq, Repr

/-- The JSON body returned by `/decode/status/`. -/
structure StatusResp where
  camera_id : String
  status : String
  frame_count : Nat
  last_error : Option String
deriving DecidableEq, Repr

/-- Outcomes of `/latest-frame/`. -/
inductive LatestResult where
  | notFound
  | noFolder
  | noFramesDecoderError (e : String)
  | noFrames
  | stale
  | frame (mtime : Nat)
deriving DecidableEq, Repr

/-- Environment of one `start` call: `proc1` is the first `Popen` as observed
after the grace sleep, `proc2` the software-fallback `Popen` likewise, and
`strE` is Python's `str(e)` rendering of the `HTTPException(500, detail)` the
function's own catch-all handler catches — library behaviour outside this
repository (Starlette renders it from the status code and the detail), kept
abstract as a function of the two. -/
structure StartEnv where
  proc1 : Proc
  proc2 : Proc
  strE : Nat → String → String

/-- The launch phase of `decode_video` (routes.py lines 150-331), entered once
the idempotency check has fallen through: make and clear the output folder,
resolve the backend, launch, grace-check, fall back to software once, and
commit the outcome into the registry.  The `raise HTTPException(500, ...)` at
lines 287 and 302 sits inside the `try:` opened at line 159, so it is
re-caught by the function's own `except Exception as e:` at lines 321-331,
which overwrites the just-committed registry entry and the surfaced detail
with `"Failed to start decode: " + str(e)` before re-raising.  The last
component lists the commands actually spawned, in order. -/
def start_launch (tasks : Registry) (fs : FrameRoot) (env : StartEnv)
    (probe : String → Bool) (camera_id : String) (input_path : String)
    (fps : Nat) (force_format : Option String) :
    StartOutcome × Registry × FrameRoot × List (List String) :=
  let fs1 := cleanup_camera_frames (mkdirCamera fs camera_id) camera_id
  let ff := force_format.getD "rkmpp"
  let hw := get_best_hwaccel probe (some ff)
  let cmd := routes_cmd hw input_path fps camera_id
  match env.proc1.exitCode with
  | some _ =>
      if hw ≠ "none" then
        let fcmd := fallback_cmd input_path fps camera_id
        match env.proc2.exitCode with
        | some _ =>
            let msg := "Both hardware and software decoding failed: "
              ++ env.proc2.procStderr
            let wrapped := "Failed to start decode: " ++ env.strE 500 msg
            (StartOutcome.startFailed wrapped,
             dictSet (dictSet tasks camera_id ⟨none, camera_id, "error", some msg⟩)
               camera_id ⟨none, camera_id, "error", some wrapped⟩,
             fs1, [cmd, fcmd])
        | none =>
            (StartOutcome.started camera_id,
             dictSet tasks camera_id ⟨some env.proc2, camera_id, "running", none⟩,
             fs1, [cmd, fcmd])
      else
        let msg := "Software decoding failed: " ++ env.proc1.procStderr
        let wrapped := "Failed to start decode: " ++ env.strE 500 msg
        (StartOutcome.startFailed wrapped,
         dictSet (dictSet tasks camera_id ⟨none, camera_id, "error", some msg⟩)
           camera_id ⟨none, camera_id, "error", some wrapped⟩,
         fs1, [cmd])
  | none =>
      (StartOutcome.started camera_id,
       dictSet tasks camera_id ⟨some env.proc1, camera_id, "running", none⟩,
       fs1, [cmd])

/-- `decode_video`, the `/decode/` endpoint (routes.py lines 109-331): input
validation, the idempotency check under the registry lock (lines 122-138),
then the launch phase. -/
def decode_video (tasks : Registry) (fs : FrameRoot) (env : StartEnv)
    (probe : String → Bool) (camera_id : String) (hasInput : Bool)
    (input_path : String) (fps : Nat) (force_format : Option String) :
    StartOutcome × Registry × FrameRoot × List (List String) :=
  if !hasInput then (StartOutcome.invalidRequest, tasks, fs, [])
  else
    match List.lookup camera_id tasks with
    | some t =>
        if is_process_running t.process then
          (StartOutcome.alreadyRunning t.output_folder, tasks, fs, [])
        else if t.status = "running" then
          (StartOutcome.alreadyRunning t.output_folder, tasks, fs, [])
        else
          start_launch tasks fs env probe camera_id input_path fps force_format
    | none =>
        start_launch tasks fs env probe camera_id input_path fps force_format

/-- `proc.terminate()` followed by `wait`/`kill`: a live handle becomes dead
(SIGTERM exit code), a dead handle is unchanged. -/
def terminateProc (p : Proc) : Proc :=
  match p.exitCode with
  | none => { p with exitCode := some (-15) }
  | some _ => p

/-- The first stop endpoint, `/decode/stop/` (routes.py lines 333-361): 404 on
a missing entry; otherwise terminate a live process, mark the task "stopped"
(the handle object, if any, stays in the entry) and clear the camera's
frames. -/
def stop_decode (tasks : Registry) (fs : FrameRoot) (camera_id : String) :
    StopOutcome × Registry × FrameRoot :=
  match List.lookup camera_id tasks with
  | none =>
      (StopOutcome.httpError 404 "No decode task found for this camera.",
       tasks, fs)
  | some t =>
      match t.process with
      | none =>
          (StopOutcome.stopped,
           dictSet tasks camera_id { t with status := "stopped" },
           cleanup_camera_frames fs camera_id)
      | some p =>
          (StopOutcome.stopped,
           dictSet tasks camera_id
             { t with process := some (terminateProc p), status := "stopped" },
           cleanup_camera_frames fs camera_id)

/-- The second stop endpoint, `/stop-decode/` (routes.py lines 512-548):
soft "not_found" on a missing entry; terminate and null out a live handle,
otherwise just mark "stopped".  Frames are not cleared. -/
def stop_decode2 (tasks : Registry) (fs : FrameRoot) (camera_id : String) :
    StopOutcome × Registry × FrameRoot :=
  match List.lookup camera_id tasks with
  | none => (StopOutcome.notFound, tasks, fs)
  | some t =>
      if is_process_running t.process then
        (StopOutcome.stopped,
         dictSet tasks camera_id { t with process := none, status := "stopped" },
         fs)
      else
        (StopOutcome.stopped,
         dictSet tasks camera_id { t with status := "stopped" },
         fs)

/-- `decode_status`, the `/decode/status/` endpoint (routes.py lines 363-402):
report the recorded state, lazily reconciling a dead process whose recorded
status is still "running" into "completed" / "error" and persisting that
transition into the registry before returning. -/
def decode_status (tasks : Registry) (fs : FrameRoot) (camera_id : String) :
    StatusResp × Registry :=
  match List.lookup camera_id tasks with
  | none => (⟨camera_id, "not_started", 0, none⟩, tasks)
  | some t =>
      match t.process with
      | none =>
          (⟨camera_id, t.status, get_frame_count fs t.output_folder,
            t.last_error⟩, tasks)
      | some p =>
          let fc := get_frame_count fs t.output_folder
          match p.exitCode with
          | none => (⟨camera_id, t.status, fc, t.last_error⟩, tasks)
          | some rc =>
              if t.status = "running" then
                if rc = 0 then
                  let t2 := { t with status := "completed" }
                  (⟨camera_id, t2.status, fc, t2.last_error⟩,
                   dictSet tasks camera_id t2)
                else
                  let msg := "Process exited with code " ++ toString rc
                  let t2 := { t with status := "error", last_error := some msg }
                  (⟨camera_id, t2.status, fc, t2.last_error⟩,
                   dictSet tasks camera_id t2)
              else
                (⟨camera_id, t.status, fc, t.last_error⟩, tasks)

/-- `get_latest_frame`, the `/latest-frame/` endpoint (routes.py lines
465-510): 404 without a task; then folder existence, frame count, and the
5-minute staleness check against wall-clock `now`, which clears the frames and
reports a distinct stale failure. -/
def get_latest_frame (tasks : Registry) (fs : FrameRoot) (now : Nat)
    (camera_id : String) : LatestResult × FrameRoot :=
  match List.lookup camera_id tasks with
  | none => (LatestResult.notFound, fs)
  | some t =>
      match List.lookup t.output_folder fs with
      | none => (LatestResult.noFolder, fs)
      | some l =>
          if l.length = 0 then
            match t.last_error with
            | some e => (LatestResult.noFramesDecoderError e, fs)
            | none => (LatestResult.noFrames, fs)
          else
            let m := maxMtime l
            if now - m > 300 then
              (LatestResult.stale, cleanup_camera_frames fs camera_id)
            else
              (LatestResult.frame m, fs)

/-- The idempotency check of `decode_video` (routes.py lines 122-138) falls
through for this camera: either no entry, or a dead handle with a
non-"running" recorded status. -/
def startPasses (tasks : Registry) (camera_id : String) : Prop :=
  match List.lookup camera_id tasks with
  | none => True
  | some t => is_process_running t.process = false ∧ t.status ≠ "running"

/-! ## Registry lemmas -/

theorem lookup_dictSet_self {β : Type} (r : List (String × β)) (k : String) (v : β) :
    List.lookup k (dictSet r k v) = some v := by
  induction r with
  | nil => simp [dictSet, List.lookup]
  | cons e rest ih =>
      obtain ⟨k2, v2⟩ := e
      by_cases h : k2 = k
      · simp [dictSet, h, List.lookup]
      · have hbeq : (k == k2) = false := by
          simp only [beq_eq_false_iff_ne]
          exact fun e2 => h e2.symm
        simp [dictSet, h, List.lookup, ih, hbeq]

theorem decode_video_passes (tasks : Registry) (fs : FrameRoot) (env : StartEnv)
    (probe : String → Bool) (camera_id : String) (input_path : String)
    (fps : Nat) (force_format : Option String)
    (hpass : startPasses tasks camera_id) :
    decode_video tasks fs env probe camera_id true input_path fps force_format
      = start_launch tasks fs env probe camera_id input_path fps force_format := by
  unfold decode_video startPasses at *
  cases hl : List.lookup camera_id tasks with
  | none => simp
  | some t =>
      rw [hl] at hpass
      simp [hpass.1, hpass.2]

/-! ## Claim theorems -/

/-- C1: if an entry for `camera_id` exists with status "running" and either a
live process handle or no tracked handle, `decode_video` returns
"already_running" immediately, spawns no subprocess, and leaves the registry
and the frame root untouched. -/
theorem start_already_running (tasks : Registry) (fs : FrameRoot)
    (env : StartEnv) (probe : String → Bool) (camera_id : String)
    (input_path : String) (fps : Nat) (force_format : Option String)
    (t : Task) (hl : List.lookup camera_id tasks = some t)
    (hs : t.status = "running")
    (hp : is_process_running t.process = true ∨ t.process = none) :
    decode_video tasks fs env probe camera_id true input_path fps force_format
      = (StartOutcome.alreadyRunning t.output_folder, tasks, fs, []) := by
  rcases hp with hp | hp
  · simp [decode_video, hl, hp]
  · simp [decode_video, hl, hp, is_process_running, hs]

/-- Witness for C1 at a concrete registry holding a running entry with no
tracked handle. -/
theorem start_already_running_witness :
    decode_video [("cam1", ⟨none, "cam1", "running", none⟩)] []
        ⟨⟨1, none, ""⟩, ⟨2, none, ""⟩, fun _ d => d⟩ (fun _ => false)
        "cam1" true "rtsp://x/y" 1 none
      = (StartOutcome.alreadyRunning "cam1",
         [("cam1", ⟨none, "cam1", "running", none⟩)], [], []) :=
  start_already_running _ _ _ _ _ _ _ _ ⟨none, "cam1", "running", none⟩
    (by decide) rfl (Or.inr rfl)

/-- C2 counterexample: on a concrete double failure (both launches dead,
retry stderr "swerr") with the caught exception rendered the way Starlette
prints an `HTTPException` (status code, colon, detail), the catch-all handler
at routes.py lines 321-331 leaves "Failed to start decode: 500: Both hardware
and software decoding failed: swerr" as the committed `last_error` and the
surfaced detail — not the retry's diagnostic itself, which the claim asserts.
(Whatever `str(e)` returns, the final message carries the "Failed to start
decode: " prefix, so it never equals the raw diagnostic.) -/
theorem start_fallback_counterexample :
    (decode_video [] [] ⟨⟨1, some 1, "hwerr"⟩, ⟨2, some 1, "swerr"⟩,
        fun code detail => toString code ++ ": " ++ detail⟩ (fun _ => false)
        "cam1" true "rtsp://x/y" 1 none).1
      = StartOutcome.startFailed
          "Failed to start decode: 500: Both hardware and software decoding failed: swerr"
    ∧ List.lookup "cam1" (decode_video [] [] ⟨⟨1, some 1, "hwerr"⟩, ⟨2, some 1, "swerr"⟩,
        fun code detail => toString code ++ ": " ++ detail⟩ (fun _ => false)
        "cam1" true "rtsp://x/y" 1 none).2.1
      = some ⟨none, "cam1", "error",
          some "Failed to start decode: 500: Both hardware and software decoding failed: swerr"⟩
    ∧ "Failed to start decode: 500: Both hardware and software decoding failed: swerr"
      ≠ "Both hardware and software decoding failed: swerr" := by
  refine ⟨by decide, by decide, by decide⟩

/-- C2 (amended): when the first launch is already dead at the grace check
and the resolved backend is not the software sentinel, `decode_video` spawns
exactly one retry whose command is the software command; if that retry is
also dead, it first commits an entry whose `last_error` is the retry's
diagnostic "Both hardware and software decoding failed: <stderr>" and raises
HTTP 500 with that detail, but the function's own catch-all handler re-catches
that exception and overwrites both the entry and the surfaced detail with
"Failed to start decode: " + str(e); the final registry entry has status
"error", no process handle, and the wrapped message as its populated
`last_error`, and the call fails with HTTP 500 carrying the wrapped
message. -/
theorem start_fallback_wrapped (tasks : Registry) (fs : FrameRoot) (env : StartEnv)
    (probe : String → Bool) (camera_id : String) (input_path : String)
    (fps : Nat) (force_format : Option String) (c1 c2 : Int)
    (hpass : startPasses tasks camera_id)
    (h1 : env.proc1.exitCode = some c1)
    (hhw : get_best_hwaccel probe (some (force_format.getD "rkmpp")) ≠ "none")
    (h2 : env.proc2.exitCode = some c2) :
    decode_video tasks fs env probe camera_id true input_path fps force_format
      = (StartOutcome.startFailed
           ("Failed to start decode: " ++ env.strE 500
             ("Both hardware and software decoding failed: " ++ env.proc2.procStderr)),
         dictSet (dictSet tasks camera_id
             ⟨none, camera_id, "error",
              some ("Both hardware and software decoding failed: " ++ env.proc2.procStderr)⟩)
           camera_id
           ⟨none, camera_id, "error",
            some ("Failed to start decode: " ++ env.strE 500
              ("Both hardware and software decoding failed: " ++ env.proc2.procStderr))⟩,
         cleanup_camera_frames (mkdirCamera fs camera_id) camera_id,
         [routes_cmd (get_best_hwaccel probe (some (force_format.getD "rkmpp")))
            input_path fps camera_id,
          fallback_cmd input_path fps camera_id])
    ∧ fallback_cmd input_path fps camera_id = routes_cmd "none" input_path fps camera_id
    ∧ List.lookup camera_id
        (decode_video tasks fs env probe camera_id true input_path fps force_format).2.1
      = some ⟨none, camera_id, "error",
          some ("Failed to start decode: " ++ env.strE 500
            ("Both hardware and software decoding failed: " ++ env.proc2.procStderr))⟩ := by
  have hmain : decode_video tasks fs env probe camera_id true input_path fps force_format
      = start_launch tasks fs env probe camera_id input_path fps force_format :=
    decode_video_passes _ _ _ _ _ _ _ _ hpass
  have hsl : start_launch tasks fs env probe camera_id input_path fps force_format
      = (StartOutcome.startFailed
           ("Failed to start decode: " ++ env.strE 500
             ("Both hardware and software decoding failed: " ++ env.proc2.procStderr)),
         dictSet (dictSet tasks camera_id
             ⟨none, camera_id, "error",
              some ("Both hardware and software decoding failed: " ++ env.proc2.procStderr)⟩)
           camera_id
           ⟨none, camera_id, "error",
            some ("Failed to start decode: " ++ env.strE 500
              ("Both hardware and software decoding failed: " ++ env.proc2.procStderr))⟩,
         cleanup_camera_frames (mkdirCamera fs camera_id) camera_id,
         [routes_cmd (get_best_hwaccel probe (some (force_format.getD "rkmpp")))
            input_path fps camera_id,
          fallback_cmd input_path fps camera_id]) := by
    simp [start_launch, h1, h2, hhw]
  refine ⟨hmain.trans hsl, ?_, ?_⟩
  · by_cases hr : pyStartsWith input_path "rtsp://" <;>
      simp [fallback_cmd, routes_cmd, hr]
  · rw [hmain, hsl]
    exact lookup_dictSet_self _ _ _

/-- Witness for C2 (amended): empty registry, rkmpp resolved, both launches
dead, `str(e)` rendered the way Starlette prints an `HTTPException`. -/
theorem start_fallback_wrapped_witness :
    decode_video [] [] ⟨⟨1, some 1, "hwerr"⟩, ⟨2, some 1, "swerr"⟩,
        fun code detail => toString code ++ ": " ++ detail⟩ (fun _ => false)
        "cam1" true "rtsp://x/y" 1 none
      = (StartOutcome.startFailed
           "Failed to start decode: 500: Both hardware and software decoding failed: swerr",
         [("cam1", ⟨none, "cam1", "error",
            some "Failed to start decode: 500: Both hardware and software decoding failed: swerr"⟩)],
         [("cam1", [])],
         [["ffmpeg", "-hwaccel", "rkmpp", "-rtsp_transport", "tcp", "-i", "rtsp://x/y",
           "-vf", "fps=1,format=rgb24", "/app/frames/cam1/frame_%04d.jpg"],
          ["ffmpeg", "-rtsp_transport", "tcp", "-i", "rtsp://x/y",
           "-vf", "fps=1,format=rgb24", "/app/frames/cam1/frame_%04d.jpg"]])
    ∧ fallback_cmd "rtsp://x/y" 1 "cam1" = routes_cmd "none" "rtsp://x/y" 1 "cam1" := by
  have h := start_fallback_wrapped [] [] ⟨⟨1, some 1, "hwerr"⟩, ⟨2, some 1, "swerr"⟩,
      fun code detail => toString code ++ ": " ++ detail⟩
      (fun _ => false) "cam1" "rtsp://x/y" 1 none 1 1 trivial rfl (by decide) rfl
  constructor
  · rw [h.1]; decide
  · exact h.2.1

/-- C3: a "running" entry with a dead handle is reconciled by the next status
call into "completed" (exit 0) or "error" with a diagnostic naming the exit
code, the transition is persisted into the registry before returning, and a
second status call changes neither the registry nor the reported
status / last_error. -/
theorem status_reconciles_dead_process (tasks : Registry) (fs fs2 : FrameRoot)
    (camera_id : String) (t : Task) (p : Proc) (rc : Int)
    (hl : List.lookup camera_id tasks = some t)
    (hp : t.process = some p) (hs : t.status = "running")
    (he : p.exitCode = some rc) :
    ((decode_status tasks fs camera_id).1.status
        = (if rc = 0 then "completed" else "error")
      ∧ (decode_status tasks fs camera_id).1.last_error
        = (if rc = 0 then t.last_error
           else some ("Process exited with code " ++ toString rc)))
    ∧ (∃ t2, List.lookup camera_id (decode_status tasks fs camera_id).2 = some t2
        ∧ t2.status = (if rc = 0 then "completed" else "error")
        ∧ t2.last_error = (if rc = 0 then t.last_error
            else some ("Process exited with code " ++ toString rc)))
    ∧ (decode_status (decode_status tasks fs camera_id).2 fs2 camera_id).2
        = (decode_status tasks fs camera_id).2
    ∧ (decode_status (decode_status tasks fs camera_id).2 fs2 camera_id).1.status
        = (decode_status tasks fs camera_id).1.status
    ∧ (decode_status (decode_status tasks fs camera_id).2 fs2 camera_id).1.last_error
        = (decode_status tasks fs camera_id).1.last_error := by
  by_cases hrc : rc = 0
  · subst hrc
    simp [decode_status, hl, hp, hs, he, lookup_dictSet_self]
  · simp [decode_status, hl, hp, hs, he, hrc, lookup_dictSet_self]

/-- Witness for C3 at a concrete running entry whose process exited with
code 1. -/
theorem status_reconciles_dead_process_witness :
    ((decode_status [("cam1", ⟨some ⟨7, some 1, ""⟩, "cam1", "running", none⟩)]
        [("cam1", [5])] "cam1").1.status = "error"
      ∧ (decode_status [("cam1", ⟨some ⟨7, some 1, ""⟩, "cam1", "running", none⟩)]
        [("cam1", [5])] "cam1").1.last_error = some "Process exited with code 1")
    ∧ (decode_status (decode_status [("cam1", ⟨some ⟨7, some 1, ""⟩, "cam1", "running", none⟩)]
        [("cam1", [5])] "cam1").2 [("cam1", [5])] "cam1").2
      = (decode_status [("cam1", ⟨some ⟨7, some 1, ""⟩, "cam1", "running", none⟩)]
        [("cam1", [5])] "cam1").2 := by
  have h := status_reconciles_dead_process
      [("cam1", ⟨some ⟨7, some 1, ""⟩, "cam1", "running", none⟩)]
      [("cam1", [5])] [("cam1", [5])] "cam1"
      ⟨some ⟨7, some 1, ""⟩, "cam1", "running", none⟩ ⟨7, some 1, ""⟩ 1
      (by decide) rfl rfl rfl
  refine ⟨⟨?_, ?_⟩, h.2.2.1⟩
  · rw [h.1.1]; decide
  · rw [h.1.2]; decide

/-- C6: the Acceleration Resolver returns `forced` exactly when it is a member
of the configured priority list (independently of any probe); an absent or
unrecognised name falls through to probing the priority list in order; the
probed result is always a member of the list, and when no probe succeeds the
software sentinel "none" is returned. -/
theorem get_best_hwaccel_spec (probe : String → Bool) (f : String) :
    get_best_hwaccel probe (some f)
      = (if f ∈ HW_ACCEL_OPTIONS then f else hwaccel_loop probe HW_ACCEL_OPTIONS)
    ∧ get_best_hwaccel probe none = hwaccel_loop probe HW_ACCEL_OPTIONS
    ∧ hwaccel_loop probe HW_ACCEL_OPTIONS ∈ HW_ACCEL_OPTIONS
    ∧ (f ∉ HW_ACCEL_OPTIONS → get_best_hwaccel probe (some f) ≠ f)
    ∧ ((∀ a ∈ HW_ACCEL_OPTIONS, probe a = false) →
        hwaccel_loop probe HW_ACCEL_OPTIONS = "none") := by
  have hmem : hwaccel_loop probe HW_ACCEL_OPTIONS ∈ HW_ACCEL_OPTIONS := by
    by_cases p1 : probe "rkmpp" <;> by_cases p2 : probe "v4l2" <;>
      by_cases p3 : probe "rga" <;>
      simp [hwaccel_loop, HW_ACCEL_OPTIONS, p1, p2, p3]
  have hsome : get_best_hwaccel probe (some f)
      = (if f ∈ HW_ACCEL_OPTIONS then f else hwaccel_loop probe HW_ACCEL_OPTIONS) := by
    by_cases hf : f ∈ HW_ACCEL_OPTIONS
    · have hne : f ≠ "" := by
        rintro rfl
        revert hf
        decide
      simp [get_best_hwaccel, hf, hne]
    · simp [get_best_hwaccel, hf]
  refine ⟨hsome, rfl, hmem, ?_, ?_⟩
  · intro hf
    rw [hsome, if_neg hf]
    intro hEq
    exact hf (hEq ▸ hmem)
  · intro hall
    have p1 := hall "rkmpp" (by decide)
    have p2 := hall "v4l2" (by decide)
    have p3 := hall "rga" (by decide)
    simp [hwaccel_loop, HW_ACCEL_OPTIONS, p1, p2, p3]

/-- C9: the Decoder Command Builder is a pure function, hence byte-identical
across invocations on the same (source, backend, fps) tuple; the command
carries the "-rtsp_transport tcp" reliable-transport flag exactly when the
source has the network-stream prefix; and the filter chain is the frame-rate
filter, then the pixel-format filter, then (for rga) the acceleration filter,
followed by the output template as the final argument. -/
theorem decode_cmd_shape (input_path hw_accel : String) (fps : Nat) (tmpl : String) :
    util_decode_cmd input_path hw_accel fps tmpl
      = ["ffmpeg"]
        ++ (if hw_accel = "rkmpp" ∨ hw_accel = "v4l2" then ["-hwaccel", hw_accel] else [])
        ++ (if pyStartsWith input_path "rtsp://" then ["-rtsp_transport", "tcp"] else [])
        ++ ["-i", input_path, "-vf",
            vfChain fps ++ (if hw_accel = "rga" then ",rga=format=rgb24" else "")]
        ++ [tmpl]
    ∧ (util_decode_cmd input_path hw_accel fps tmpl).getLast? = some tmpl
    ∧ vfChain fps = "fps=" ++ toString fps ++ ",format=rgb24"
    ∧ util_decode_cmd input_path hw_accel fps tmpl
      = util_decode_cmd input_path hw_accel fps tmpl := by
  have hshape : util_decode_cmd input_path hw_accel fps tmpl
      = ["ffmpeg"]
        ++ (if hw_accel = "rkmpp" ∨ hw_accel = "v4l2" then ["-hwaccel", hw_accel] else [])
        ++ (if pyStartsWith input_path "rtsp://" then ["-rtsp_transport", "tcp"] else [])
        ++ ["-i", input_path, "-vf",
            vfChain fps ++ (if hw_accel = "rga" then ",rga=format=rgb24" else "")]
        ++ [tmpl] := by
    by_cases h1 : hw_accel = "none"
    · subst h1
      by_cases hr : pyStartsWith input_path "rtsp://" <;> simp [util_decode_cmd, hr]
    · by_cases h2 : hw_accel = "rkmpp"
      · subst h2
        by_cases hr : pyStartsWith input_path "rtsp://" <;> simp [util_decode_cmd, hr]
      · by_cases h3 : hw_accel = "v4l2"
        · subst h3
          by_cases hr : pyStartsWith input_path "rtsp://" <;> simp [util_decode_cmd, hr]
        · by_cases h4 : hw_accel = "rga"
          · subst h4
            by_cases hr : pyStartsWith input_path "rtsp://" <;> simp [util_decode_cmd, hr]
          · by_cases hr : pyStartsWith input_path "rtsp://" <;>
              simp [util_decode_cmd, h1, h2, h3, h4, hr]
  refine ⟨hshape, ?_, rfl, rfl⟩
  rw [hshape]
  by_cases ha : hw_accel = "rkmpp" ∨ hw_accel = "v4l2" <;>
    by_cases hr : pyStartsWith input_path "rtsp://" <;> simp [ha, hr]

/-- C10: when `get_video_info` fails and returns the single-key "error"
dictionary, `decode_video2frames_in_jpeg` terminates with `KeyError "format"`
at its info-printing line, performing no effect: the output directory is not
created and no decoder subprocess is run. -/
theorem decode_keyerror_on_info_failure (probe : String → Bool)
    (e input_path force_format : String) (fps : Nat) (camera_id : Option String)
    (runRC : Int) (runStderr : String) :
    decode_video2frames_in_jpeg probe (get_video_info_error_result e) input_path
        force_format fps camera_id runRC runStderr
      = ([], Except.error (PyExc.keyError "format")) := rfl

theorem get_frame_count_cleanup (fs : FrameRoot) (cid : String) :
    get_frame_count (cleanup_camera_frames fs cid) cid = 0 := by
  unfold cleanup_camera_frames get_frame_count
  cases h : List.lookup cid fs with
  | none => simp [h]
  | some l => simp [lookup_dictSet_self]

/-- C7: when a registry entry exists and the most recent frame file is older
than the 300-second staleness threshold, `/latest-frame/` clears the camera's
frame directory and reports the distinct stale failure — not `TaskNotFound`
and not the outdated frame. -/
theorem latest_frame_stale (tasks : Registry) (fs : FrameRoot) (now : Nat)
    (camera_id : String) (t : Task) (l : List Nat)
    (hl : List.lookup camera_id tasks = some t)
    (hof : t.output_folder = camera_id)
    (hfs : List.lookup camera_id fs = some l)
    (hne : l ≠ [])
    (hstale : now - maxMtime l > 300) :
    get_latest_frame tasks fs now camera_id
      = (LatestResult.stale, dictSet fs camera_id [])
    ∧ List.lookup camera_id (get_latest_frame tasks fs now camera_id).2 = some [] := by
  have hlen : l.length ≠ 0 := by simpa using hne
  constructor
  · simp [get_latest_frame, hl, hof, hfs, hlen, hstale, cleanup_camera_frames]
  · simp [get_latest_frame, hl, hof, hfs, hlen, hstale, cleanup_camera_frames,
      lookup_dictSet_self]

/-- C8: the orphan sweep clears exactly the frame directories whose name is
not a registry key or whose entry has status "stopped"; a directory whose
entry has any other status (such as "running", "completed" or "error") keeps
its frames. -/
theorem orphan_sweep_spec (tasks : Registry) (fs : FrameRoot) (cid : String)
    (l : List Nat) (hmem : (cid, l) ∈ fs) :
    (List.lookup cid tasks = none →
        (cid, ([] : List Nat)) ∈ cleanup_orphaned_frames tasks fs)
    ∧ (∀ t, List.lookup cid tasks = some t → t.status = "stopped" →
        (cid, ([] : List Nat)) ∈ cleanup_orphaned_frames tasks fs)
    ∧ (∀ t, List.lookup cid tasks = some t → t.status ≠ "stopped" →
        (cid, l) ∈ cleanup_orphaned_frames tasks fs) := by
  refine ⟨?_, ?_, ?_⟩
  · intro h
    have hm := List.mem_map_of_mem
      (fun e => match List.lookup e.1 tasks with
        | none => (e.1, ([] : List Nat))
        | some t => if t.status = "stopped" then (e.1, []) else e) hmem
    simpa [cleanup_orphaned_frames, h] using hm
  · intro t ht hs
    have hm := List.mem_map_of_mem
      (fun e => match List.lookup e.1 tasks with
        | none => (e.1, ([] : List Nat))
        | some t => if t.status = "stopped" then (e.1, []) else e) hmem
    simpa [cleanup_orphaned_frames, ht, hs] using hm
  · intro t ht hs
    have hm := List.mem_map_of_mem
      (fun e => match List.lookup e.1 tasks with
        | none => (e.1, ([] : List Nat))
        | some t => if t.status = "stopped" then (e.1, []) else e) hmem
    simpa [cleanup_orphaned_frames, ht, hs] using hm

/-- C4 (amended): on an existing registry entry, `/decode/stop/` sets status
"stopped", clears the frame directory (so an immediate status call reports
frame_count 0) but retains a tracked process handle; `/stop-decode/` sets
status "stopped" and clears the handle when the process was live, but leaves
the frame directory untouched. -/
theorem stop_amended (tasks : Registry) (fs : FrameRoot) (camera_id : String)
    (t : Task) (hl : List.lookup camera_id tasks = some t)
    (hof : t.output_folder = camera_id) :
    (stop_decode tasks fs camera_id).1 = StopOutcome.stopped
    ∧ (∃ t2, List.lookup camera_id (stop_decode tasks fs camera_id).2.1 = some t2
        ∧ t2.status = "stopped" ∧ t2.process.isSome = t.process.isSome)
    ∧ (decode_status (stop_decode tasks fs camera_id).2.1
        (stop_decode tasks fs camera_id).2.2 camera_id).1.frame_count = 0
    ∧ (stop_decode2 tasks fs camera_id).1 = StopOutcome.stopped
    ∧ (∃ t3, List.lookup camera_id (stop_decode2 tasks fs camera_id).2.1 = some t3
        ∧ t3.status = "stopped"
        ∧ (is_process_running t.process = true → t3.process = none))
    ∧ (stop_decode2 tasks fs camera_id).2.2 = fs := by
  cases hp : t.process with
  | none =>
      refine ⟨by simp [stop_decode, hl, hp], ?_, ?_, ?_, ?_, ?_⟩
      · refine ⟨{ t with status := "stopped" }, ?_, rfl, by simp [hp]⟩
        simp [stop_decode, hl, hp, lookup_dictSet_self]
      · simp [stop_decode, hl, hp, decode_status, lookup_dictSet_self, hof,
          get_frame_count_cleanup]
      · simp [stop_decode2, hl, hp, is_process_running]
      · refine ⟨{ t with status := "stopped" }, ?_, rfl, ?_⟩
        · simp [stop_decode2, hl, hp, is_process_running, lookup_dictSet_self]
        · intro hcontra
          simp [is_process_running] at hcontra
      · simp [stop_decode2, hl, hp, is_process_running]
  | some p =>
      cases hpe : p.exitCode with
      | none =>
          refine ⟨by simp [stop_decode, hl, hp, is_process_running, hpe], ?_, ?_, ?_, ?_, ?_⟩
          · refine ⟨{ t with process := some (terminateProc p), status := "stopped" },
              ?_, rfl, by simp [hp]⟩
            simp [stop_decode, hl, hp, is_process_running, hpe, lookup_dictSet_self]
          · simp [stop_decode, hl, hp, is_process_running, hpe, decode_status,
              lookup_dictSet_self, hof, get_frame_count_cleanup, terminateProc]
          · simp [stop_decode2, hl, hp, is_process_running, hpe]
          · refine ⟨{ t with process := none, status := "stopped" }, ?_, rfl, fun _ => rfl⟩
            simp [stop_decode2, hl, hp, is_process_running, hpe, lookup_dictSet_self]
          · simp [stop_decode2, hl, hp, is_process_running, hpe]
      | some c =>
          refine ⟨by simp [stop_decode, hl, hp, is_process_running, hpe], ?_, ?_, ?_, ?_, ?_⟩
          · refine ⟨{ t with process := some (terminateProc p), status := "stopped" },
              ?_, rfl, by simp [hp]⟩
            simp [stop_decode, hl, hp, is_process_running, hpe, lookup_dictSet_self]
          · simp [stop_decode, hl, hp, is_process_running, hpe, decode_status,
              lookup_dictSet_self, hof, get_frame_count_cleanup, terminateProc]
          · simp [stop_decode2, hl, hp, is_process_running, hpe]
          · refine ⟨{ t with status := "stopped" }, ?_, rfl, ?_⟩
            · simp [stop_decode2, hl, hp, is_process_running, hpe, lookup_dictSet_self]
            · intro hcontra
              simp [is_process_running, hpe] at hcontra
          · simp [stop_decode2, hl, hp, is_process_running, hpe]

/-- C5 (amended): on a missing registry entry, the `/stop-decode/` endpoint
reports "not_found" as a soft no-op leaving registry and frames unchanged,
while the `/decode/stop/` endpoint raises an HTTP 404 `TaskNotFound` error. -/
theorem stop_missing_amended (tasks : Registry) (fs : FrameRoot) (camera_id : String)
    (h : List.lookup camera_id tasks = none) :
    stop_decode2 tasks fs camera_id = (StopOutcome.notFound, tasks, fs)
    ∧ stop_decode tasks fs camera_id
      = (StopOutcome.httpError 404 "No decode task found for this camera.", tasks, fs) := by
  constructor <;> simp [stop_decode, stop_decode2, h]

/-- C5 counterexample: `stop` via `/decode/stop/` on an unknown camera raises
an HTTP 404 error, so "stop never raises and reports not-found" is false as
stated. -/
theorem stop_missing_counterexample :
    stop_decode [] [] "cam1"
      = (StopOutcome.httpError 404 "No decode task found for this camera.", [], []) := by
  decide

/-- C4 counterexample: `/stop-decode/` on a running entry with one frame on
disk leaves the frame directory untouched, and the status call immediately
after reports frame_count 1, not 0; moreover `/decode/stop/` on an entry with
a (dead) tracked handle keeps the handle in the entry.  So "stop always
clears the handle and clears frames" is false as stated. -/
theorem stop_counterexample :
    (stop_decode2 [("cam1", ⟨none, "cam1", "running", none⟩)] [("cam1", [100])] "cam1").2.2
      = [("cam1", [100])]
    ∧ (decode_status
        (stop_decode2 [("cam1", ⟨none, "cam1", "running", none⟩)] [("cam1", [100])] "cam1").2.1
        (stop_decode2 [("cam1", ⟨none, "cam1", "running", none⟩)] [("cam1", [100])] "cam1").2.2
        "cam1").1.frame_count = 1
    ∧ (stop_decode [("cam1", ⟨some ⟨5, some 0, ""⟩, "cam1", "running", none⟩)]
        [("cam1", [100])] "cam1").2.1
      = [("cam1", ⟨some ⟨5, some 0, ""⟩, "cam1", "stopped", none⟩)] := by
  decide

/-- Witness for C6 at the constantly failing probe and an unrecognised forced
name. -/
theorem get_best_hwaccel_spec_witness :
    get_best_hwaccel (fun _ => false) (some "bogus") ≠ "bogus"
    ∧ hwaccel_loop (fun _ => false) HW_ACCEL_OPTIONS = "none" := by
  have h := get_best_hwaccel_spec (fun _ => false) "bogus"
  exact ⟨h.2.2.2.1 (by decide), h.2.2.2.2 (by decide)⟩

/-- Witness for C7: newest frame is 400 seconds old. -/
theorem latest_frame_stale_witness :
    get_latest_frame [("cam1", ⟨none, "cam1", "running", none⟩)]
        [("cam1", [100, 600])] 1000 "cam1"
      = (LatestResult.stale, [("cam1", [])]) := by
  have h := latest_frame_stale [("cam1", ⟨none, "cam1", "running", none⟩)]
      [("cam1", [100, 600])] 1000 "cam1" ⟨none, "cam1", "running", none⟩ [100, 600]
      (by decide) rfl (by decide) (by decide) (by decide)
  rw [h.1]
  decide

/-- Witness for C8 at the spec's scenario: registry cam1 running / cam2
stopped, directories cam1 cam2 cam3 — cam2 and cam3 are cleared, cam1 keeps
its frames. -/
theorem orphan_sweep_spec_witness :
    (("cam3", ([] : List Nat)) ∈ cleanup_orphaned_frames
        [("cam1", ⟨none, "cam1", "running", none⟩),
         ("cam2", ⟨none, "cam2", "stopped", none⟩)]
        [("cam1", [1]), ("cam2", [2]), ("cam3", [3])])
    ∧ (("cam2", ([] : List Nat)) ∈ cleanup_orphaned_frames
        [("cam1", ⟨none, "cam1", "running", none⟩),
         ("cam2", ⟨none, "cam2", "stopped", none⟩)]
        [("cam1", [1]), ("cam2", [2]), ("cam3", [3])])
    ∧ (("cam1", [1]) ∈ cleanup_orphaned_frames
        [("cam1", ⟨none, "cam1", "running", none⟩),
         ("cam2", ⟨none, "cam2", "stopped", none⟩)]
        [("cam1", [1]), ("cam2", [2]), ("cam3", [3])]) := by
  refine ⟨?_, ?_, ?_⟩
  · exact (orphan_sweep_spec _ _ "cam3" [3] (by decide)).1 (by decide)
  · exact (orphan_sweep_spec _ _ "cam2" [2] (by decide)).2.1
      ⟨none, "cam2", "stopped", none⟩ (by decide) rfl
  · exact (orphan_sweep_spec _ _ "cam1" [1] (by decide)).2.2
      ⟨none, "cam1", "running", none⟩ (by decide) (by decide)

/-- Witness for C4 (amended) at a running entry with one frame on disk. -/
theorem stop_amended_witness :
    (stop_decode [("cam1", ⟨some ⟨3, none, ""⟩, "cam1", "running", none⟩)]
        [("cam1", [42])] "cam1").1 = StopOutcome.stopped
    ∧ (decode_status
        (stop_decode [("cam1", ⟨some ⟨3, none, ""⟩, "cam1", "running", none⟩)]
          [("cam1", [42])] "cam1").2.1
        (stop_decode [("cam1", ⟨some ⟨3, none, ""⟩, "cam1", "running", none⟩)]
          [("cam1", [42])] "cam1").2.2
        "cam1").1.frame_count = 0
    ∧ (stop_decode2 [("cam1", ⟨some ⟨3, none, ""⟩, "cam1", "running", none⟩)]
        [("cam1", [42])] "cam1").1 = StopOutcome.stopped
    ∧ (stop_decode2 [("cam1", ⟨some ⟨3, none, ""⟩, "cam1", "running", none⟩)]
        [("cam1", [42])] "cam1").2.2 = [("cam1", [42])] := by
  have h := stop_amended [("cam1", ⟨some ⟨3, none, ""⟩, "cam1", "running", none⟩)]
      [("cam1", [42])] "cam1" ⟨some ⟨3, none, ""⟩, "cam1", "running", none⟩
      (by decide) rfl
  exact ⟨h.1, h.2.2.1, h.2.2.2.1, h.2.2.2.2.2⟩

/-- Witness for C5 (amended) at the empty registry. -/
theorem stop_missing_amended_witness :
    stop_decode2 [] [] "camX" = (StopOutcome.notFound, [], [])
    ∧ stop_decode [] [] "camX"
      = (StopOutcome.httpError 404 "No decode task found for this camera.", [], []) :=
  stop_missing_amended [] [] "camX" rfl

end Vpipe
